import Mathlib

/-!
Verification development for the anvil project generator
(`anvil/core.py`): a shallow embedding in Lean 4 of the template
expansion engine, configuration loader, ignore policy and path
resolver, together with theorems settling the specification's claims.

Python strings are modelled as Lean `String`, Python `None` via
`Option`, raised exceptions via `Except PyError`, and the process
filesystem via an explicit oracle (`OSModel`) plus an explicit output
state (`OutFS`).  All definitions are executable so that concrete
scenarios evaluate by `rfl`/`decide`.
-/

/-- Errors raised by the embedded code.  `valueError` models Python's
`ValueError` (the spec's `InvalidPathError` class), `fileExists` models
`FileExistsError` (the spec's `DestinationExistsError` class),
`typeError` models `TypeError`, `fileNotFound` models
`FileNotFoundError`.  `fuelExhausted` is an artifact marking
insufficient recursion fuel; it is never reached with adequate fuel. -/
inductive PyError where
  | valueError (msg : String)
  | typeError (msg : String)
  | fileNotFound
  | fileExists
  | templateNotFound
  | configLoad
  | osError
  | fuelExhausted
deriving DecidableEq, Repr

/-- Character-list model of Python's `str.startswith`:
`py_startswith pre s` is true when `pre` is a prefix of `s`. -/
def py_startswith : List Char → List Char → Bool
  | [], _ => true
  | _ :: _, [] => false
  | p :: ps, c :: cs => p == c && py_startswith ps cs

/-- String wrapper for `py_startswith`, argument order as in Python:
`pyStartsWith s pre` models `s.startswith(pre)`. -/
def pyStartsWith (s pre : String) : Bool :=
  py_startswith pre.data s.data

/-- Splits a character list at every `'/'`, mirroring Python's
`str.split('/')` (consecutive separators yield empty components). -/
def splitChar : List Char → List (List Char)
  | [] => [[]]
  | '/' :: rest => [] :: splitChar rest
  | c :: rest =>
      match splitChar rest with
      | g :: gs => (c :: g) :: gs
      | [] => [[c]]

/-- Model of `posixpath.isabs`: a path is absolute when it starts
with a slash. -/
def posixIsabs (p : String) : Bool :=
  py_startswith ['/'] p.data

/-- Model of `posixpath.join` for two arguments: the second path wins
when absolute, otherwise it is appended with a separating slash unless
the first path is empty or already ends with a slash. -/
def posixJoin (a b : String) : String :=
  if posixIsabs b then b
  else if a.data = [] ∨ a.data.getLast? = some '/' then String.mk (a.data ++ b.data)
  else String.mk (a.data ++ '/' :: b.data)

/-- Model of `posixpath.split`: the tail is everything after the last
slash; the head is the remainder, with trailing slashes stripped unless
the head consists only of slashes. -/
def posixSplit (p : String) : String × String :=
  let cs := p.data
  let tail := (cs.reverse.takeWhile (fun c => c ≠ '/')).reverse
  let head := cs.take (cs.length - tail.length)
  let head :=
    if head ≠ [] ∧ head.any (fun c => c ≠ '/') then
      (head.reverse.dropWhile (fun c => c = '/')).reverse
    else head
  (String.mk head, String.mk tail)

/-- Model of `posixpath.basename`: everything after the last slash. -/
def posixBasename (p : String) : String :=
  String.mk ((p.data.reverse.takeWhile (fun c => c ≠ '/')).reverse)

/-- Model of `posixpath.normpath`: collapses empty and `.` components,
resolves `..` against preceding components, and preserves the leading
slash count (two slashes stay two, one and three or more become one). -/
def posixNormpath (p : String) : String :=
  if p.data = [] then "."
  else
    let cs := p.data
    let slashCount : Nat :=
      if py_startswith ['/'] cs then
        if py_startswith ['/', '/'] cs ∧ ¬ py_startswith ['/', '/', '/'] cs then 2 else 1
      else 0
    let comps := splitChar cs
    let newComps := comps.foldl (fun acc comp =>
      if comp = [] ∨ comp = ['.'] then acc
      else if comp ≠ ['.', '.'] ∨ (slashCount = 0 ∧ acc = []) ∨
              (acc.getLast? = some ['.', '.']) then acc ++ [comp]
      else if acc ≠ [] then acc.dropLast
      else acc) []
    let joined := List.intercalate ['/'] newComps
    let full := List.replicate slashCount '/' ++ joined
    if full = [] then "." else String.mk full

/-- Proper ancestor directories of a path, outermost first: every
nonempty strict prefix of its slash-separated components rejoined. -/
def pathAncestors (p : String) : List String :=
  let comps := splitChar p.data
  (List.range comps.length).filterMap (fun i =>
    if i = 0 then none
    else
      let pref := List.intercalate ['/'] (comps.take i)
      if pref = [] then none else some (String.mk pref))

/-- A parsed piece of a Jinja template: literal text or a
double-curly-brace variable interpolation. -/
inductive Chunk where
  | lit (s : String)
  | var (name : String)
deriving DecidableEq, Repr

/-- Drops leading and trailing whitespace from a character list,
modelling how Jinja tolerates spaces inside an interpolation. -/
def trimWs (cs : List Char) : List Char :=
  ((cs.dropWhile Char.isWhitespace).reverse.dropWhile Char.isWhitespace).reverse

/-- Emits a pending literal accumulator as at most one `Chunk.lit`. -/
def emitLit (acc : List Char) : List Chunk :=
  if acc = [] then [] else [Chunk.lit (String.mk acc)]

/-- Single-pass scanner behind `parseTemplateChunks`.  `mode = none`
is literal mode with `litAcc` the pending literal text; `mode = some
varAcc` is inside a variable interpolation opened by two braces with
`varAcc` the name text read so far.  An unterminated interpolation is
kept as literal text (Jinja would raise a syntax error there; no claim
exercises that corner). -/
def parseChunksAux : Option (List Char) → List Char → List Char → List Chunk
  | none, litAcc, [] => emitLit litAcc
  | none, litAcc, '{' :: '{' :: rest =>
      emitLit litAcc ++ parseChunksAux (some []) [] rest
  | none, litAcc, c :: rest => parseChunksAux none (litAcc ++ [c]) rest
  | some varAcc, litAcc, [] => emitLit (litAcc ++ '{' :: '{' :: varAcc)
  | some varAcc, _litAcc, '}' :: '}' :: rest =>
      Chunk.var (String.mk (trimWs varAcc)) :: parseChunksAux none [] rest
  | some varAcc, litAcc, c :: rest => parseChunksAux (some (varAcc ++ [c])) litAcc rest

/-- Model of `jinja2.Template(source)` for the fragment of Jinja the
repository uses: literal text interleaved with simple
`\x7b\x7b name \x7d\x7d` variable interpolations. -/
def parseTemplateChunks (source : String) : List Chunk :=
  parseChunksAux none [] source.data

/-- A rendering context: the mapping from variable name to
substitution value passed to every `render` call. -/
abbrev Ctx : Type := List (String × String)

/-- Context lookup, first binding wins (Python dicts have unique
keys). -/
def lookupCtx (context : List (String × String)) (nm : String) : Option String :=
  (context.find? (fun kv => kv.1 == nm)).map Prod.snd

/-- Character-level rendering of parsed chunks against a context.  A
variable whose name is absent from the context contributes nothing:
the environment in `Anvil.__init__` is built without `StrictUndefined`,
so Jinja's default permissive `Undefined` renders as the empty
string. -/
def renderData (chunks : List Chunk) (context : List (String × String)) : List Char :=
  match chunks with
  | [] => []
  | Chunk.lit s :: rest => s.data ++ renderData rest context
  | Chunk.var nm :: rest =>
      (match lookupCtx context nm with
       | some v => v.data
       | none => []) ++ renderData rest context

/-- Model of `template.render(**context)` on a parsed template. -/
def renderChunks (chunks : List Chunk) (context : List (String × String)) : String :=
  String.mk (renderData chunks context)

/-- Reads a bracket character class from a pattern (the characters
after `[`).  Mirrors `fnmatch.translate`: an optional leading `!`
negates; a `]` directly after the opening (or after `!`) is a literal
member; an unclosed class makes the `[` a literal character (`none`).
Returns the negation flag, the raw member characters, and the rest of
the pattern after the closing `]`. -/
def parseSet (ps : List Char) : Option (Bool × List Char × List Char) :=
  let (neg, body) :=
    match ps with
    | '!' :: rest => (true, rest)
    | _ => (false, ps)
  match body with
  | ']' :: rest =>
      match rest.takeWhile (fun c => c ≠ ']'), rest.dropWhile (fun c => c ≠ ']') with
      | stuff, ']' :: rest' => some (neg, ']' :: stuff, rest')
      | _, _ => none
  | _ =>
      match body.takeWhile (fun c => c ≠ ']'), body.dropWhile (fun c => c ≠ ']') with
      | stuff, ']' :: rest' => some (neg, stuff, rest')
      | _, _ => none

/-- Membership of a character in a raw class body, with `a-z` ranges
interpreted as in the regular expression `fnmatch` compiles to. -/
def setMatches : List Char → Char → Bool
  | a :: '-' :: b :: rest, c =>
      (a ≤ c ∧ c ≤ b : Bool) || setMatches rest c
  | a :: rest, c => a == c || setMatches rest c
  | [], _ => false

/-- Fueled backtracking matcher for shell glob patterns (`*`, `?`,
`[...]`, literal characters), the language `fnmatch.fnmatch` accepts.
Every recursive call strictly shrinks the pattern or, with the pattern
unchanged, the string, and neither ever grows, so the recursion depth
is at most `pattern.length + string.length`; the fuel supplied by
`fnmatch` below therefore never runs out. -/
def globMatchFuel : Nat → List Char → List Char → Bool
  | 0, _, _ => false
  | _ + 1, [], cs => cs.isEmpty
  | fuel + 1, '*' :: ps, cs =>
      globMatchFuel fuel ps cs ||
        (match cs with
         | [] => false
         | _ :: cs' => globMatchFuel fuel ('*' :: ps) cs')
  | fuel + 1, '?' :: ps, cs =>
      match cs with
      | [] => false
      | _ :: cs' => globMatchFuel fuel ps cs'
  | fuel + 1, '[' :: ps, cs =>
      match parseSet ps, cs with
      | some (neg, stuff, ps'), c :: cs' =>
          (if neg then ! setMatches stuff c else setMatches stuff c) &&
            globMatchFuel fuel ps' cs'
      | some _, [] => false
      | none, c :: cs' => c == '[' && globMatchFuel fuel ps cs'
      | none, [] => false
  | fuel + 1, p :: ps, cs =>
      match cs with
      | [] => false
      | c :: cs' => p == c && globMatchFuel fuel ps cs'

/-- Model of `fnmatch.fnmatch(name, pattern)` on POSIX (where
`normcase` is the identity): glob-style matching of an entry name
against a pattern. -/
def fnmatch (nm pattern : String) : Bool :=
  globMatchFuel (pattern.data.length + nm.data.length + 1) pattern.data nm.data

/-- Model of `get_ignore(patterns, addons)` from `core.py`, reduced to
the pattern list finally captured: the default set holds the single
OS-metadata pattern `.DS_Store`; a supplied `patterns` list replaces
it; a supplied `addons` list is appended to whichever base list is
active.  The returned Python closure is `shutil.ignore_patterns`
applied to this list, modelled by `shutil_ignore_patterns` below. -/
def get_ignore (patterns : Option (List String) := none)
    (addons : Option (List String) := none) : List String :=
  let ignorePats := [".DS_Store"]
  let ignorePats := match patterns with
    | some ps => ps
    | none => ignorePats
  match addons with
  | some adds => ignorePats ++ adds
  | none => ignorePats

/-- Model of the closure built by `shutil.ignore_patterns(*patterns)`:
given a directory path (unused) and its entry names, the set of names
matching at least one glob pattern.  `shutil` returns a Python set;
membership is what matters, modelled by a filtered list. -/
def shutil_ignore_patterns (patterns : List String) (_path : String)
    (names : List String) : List String :=
  names.filter (fun nm => patterns.any (fun p => fnmatch nm p))

/-- Model of `anvil_keys(data)`: the key-value pairs whose key starts
with the reserved prefix `anvil_`, re-keyed with that prefix stripped
(`k[len(PRE):]`). -/
def anvil_keys {α : Type} (data : List (String × α)) : List (String × α) :=
  (data.filter (fun kv => pyStartsWith kv.1 "anvil_")).map
    (fun kv => (String.mk (kv.1.data.drop "anvil_".length), kv.2))

/-- Model of `context_keys(data)`: the key-value pairs whose key does
not start with the reserved prefix, kept verbatim. -/
def context_keys {α : Type} (data : List (String × α)) : List (String × α) :=
  data.filter (fun kv => ! pyStartsWith kv.1 "anvil_")

/-- Model of `dict.get(key, default)` on an insertion-ordered mapping
with unique keys. -/
def pyGet {α : Type} (d : List (String × α)) (k : String) (dflt : α) : α :=
  ((d.find? (fun kv => kv.1 == k)).map Prod.snd).getD dflt

/-- A parsed YAML document: an insertion-ordered mapping from string
keys to values, each value either a string (`some`) or YAML null
(`none`) — the shapes the claims exercise. -/
abbrev YamlDoc : Type := List (String × Option String)

/-- Oracle for the parts of the process environment the code consults:
the on-disk filesystem read side (`os.path.exists`, `os.path.isdir`,
`os.listdir`, `open(...,'r')`) and `yaml.safe_load` on a file's
content.  Concrete scenarios instantiate it; general theorems
quantify over it. -/
structure OSModel where
  path_exists : String → Bool
  isdir : String → Bool
  listdir : String → Option (List String)
  readFile : String → Option String
  yamlParse : String → Except PyError YamlDoc

/-- The output-side filesystem state accumulated by a generation run:
directories created and files written (most recent write first; a
later write to the same path shadows an earlier one, matching the
truncate-or-create `open(...,'w')`). -/
structure OutFS where
  dirs : List String
  files : List (String × String)
deriving DecidableEq, Repr

/-- A path exists when the pre-existing filesystem has it or the
current run has created it. -/
def pathExists (os : OSModel) (out : OutFS) (p : String) : Bool :=
  os.path_exists p || out.dirs.contains p || (out.files.map Prod.fst).contains p

/-- Model of `os.makedirs(name)` with the default `exist_ok=False`,
per its contract: raises `FileExistsError` when the target already
exists, otherwise creates the target directory and all missing
intermediate directories. -/
def makedirs (os : OSModel) (out : OutFS) (nm : String) : Except PyError OutFS :=
  if pathExists os out nm then .error .fileExists
  else .ok { out with dirs := nm :: pathAncestors nm ++ out.dirs }

/-- Fixed name of the configuration file (`AnvilFile.ANVIL_FILE`). -/
def AnvilFile.ANVIL_FILE : String := "anvil.yaml"

/-- Model of the `AnvilFile` object: the input configuration read from
`anvil.yaml`.  `Option String` fields model Python attributes that may
hold `None` or a string. -/
structure AnvilFile where
  title : Option String
  description : Option String
  epilog : Option String
  template_relpath : Option String
  context_vars : Option YamlDoc
deriving DecidableEq, Repr

/-- Pure core of `AnvilFile.load_file` once the YAML document is
parsed: partition the document with `anvil_keys`/`context_keys` and
fill the fields, defaulting each tool setting to the empty string. -/
def AnvilFile.apply_yaml (a : AnvilFile) (yaml_data : YamlDoc) : AnvilFile :=
  let anvil_pairs := anvil_keys yaml_data
  { a with
    title := pyGet anvil_pairs "title" (some ""),
    description := pyGet anvil_pairs "description" (some ""),
    epilog := pyGet anvil_pairs "epilog" (some ""),
    template_relpath := pyGet anvil_pairs "template_dir" (some ""),
    context_vars := some (context_keys yaml_data) }

/-- Model of `AnvilFile.load_file`: `open(anvil_file_path, 'r')`
raises `FileNotFoundError` when the path is absent, otherwise the
content is parsed by `yaml.safe_load` and applied to the fields. -/
def AnvilFile.load_file (os : OSModel) (a : AnvilFile)
    (anvil_file_path : String) : Except PyError AnvilFile :=
  match os.readFile anvil_file_path with
  | none => .error .fileNotFound
  | some content =>
      match os.yamlParse content with
      | .error e => .error e
      | .ok yaml_data => .ok (a.apply_yaml yaml_data)

/-- Model of `AnvilFile.__init__`.  The parameter defaults mirror the
Python signature (`template_relpath=""`, all else `None`).  The body
stores every parameter into its field first; the subsequent
`if context_vars is None: context_vars = \x7b\x7d` in the source rebinds only
the local variable, so the stored field keeps the parameter's value.
When `input_root` is supplied, the configuration file is opened
unconditionally. -/
def AnvilFile.mkInit (os : OSModel) (input_root : Option String := none)
    (title : Option String := none) (description : Option String := none)
    (epilog : Option String := none) (template_relpath : Option String := some "")
    (context_vars : Option YamlDoc := none) : Except PyError AnvilFile :=
  let a : AnvilFile :=
    { title := title, description := description, epilog := epilog,
      template_relpath := template_relpath, context_vars := context_vars }
  match input_root with
  | none => .ok a
  | some root => AnvilFile.load_file os a (posixJoin root AnvilFile.ANVIL_FILE)

/-- Model of `AnvilFile.template_arrangement`: `root` when the stored
`template_relpath` is one of `""`, `"."`, `"None"`, `"none"` or Python
`None`, else `subnode`. -/
def AnvilFile.template_arrangement (a : AnvilFile) : String :=
  if a.template_relpath = some "" ∨ a.template_relpath = some "." ∨
      a.template_relpath = some "None" ∨ a.template_relpath = some "none" ∨
      a.template_relpath = none then "root"
  else "subnode"

/-- Model of `AnvilFile.get_context_vars`. -/
def AnvilFile.get_context_vars (a : AnvilFile) : Option YamlDoc :=
  a.context_vars

/-- Model of `Anvil.input_path`: the absolute path of a node of the
input repository.  An absolute `input_relpath` is rejected with
`ValueError` (the spec's `InvalidPathError` usage error) instead of
producing a path. -/
def Anvil.input_path (input_root : String) (input_relpath : String := "") :
    Except PyError String :=
  if posixIsabs input_relpath then
    .error (.valueError "input_relpath cannot be an absolute path")
  else .ok (posixJoin input_root input_relpath)

/-- Model of `Anvil.template_parent_join`: the absolute path of a node
under the template parent.  An absolute `template_relpath` is rejected
with `ValueError` (the spec's `InvalidPathError` usage error) instead
of producing a path. -/
def Anvil.template_parent_join (template_parent : String)
    (template_relpath : String := "") : Except PyError String :=
  if posixIsabs template_relpath then
    .error (.valueError "template_relpath cannot be an absolute path")
  else .ok (posixJoin template_parent template_relpath)

/-- Model of the `Anvil` object once constructed.  `ignore_func`
stores the pattern list captured by the `shutil.ignore_patterns`
closure held in the Python attribute of the same name;
`jinja_searchpath` is the search path of the `FileSystemLoader` the
`jinja_env` was built with (the template parent). -/
structure Anvil where
  input_root : String
  output_root : String
  ignore_func : List String
  input_config : AnvilFile
  template_abspath : String
  template_parent : String
  template_name : String
  jinja_searchpath : String
deriving DecidableEq, Repr

/-- Final value of `self.ignore_func` after `Anvil.__init__`: line 61
first assigns `get_ignore()`, and line 74 overwrites it with
`get_ignore(addons=['anvil.yaml'])` when the template arrangement is
`root`, so the configuration file is ignored during expansion. -/
def Anvil.init_ignore_func (input_config : AnvilFile) : List String :=
  if input_config.template_arrangement = "root" then
    get_ignore none (some ["anvil.yaml"])
  else get_ignore none none

/-- Model of `Anvil.__init__`: reads the configuration from the input
repository, resolves the template's absolute path, splits it into
template parent and name, chooses the ignore patterns, and roots the
Jinja loader at the template parent. -/
def Anvil.init (os : OSModel) (ipath opath : String) : Except PyError Anvil := do
  let input_config ← AnvilFile.mkInit os (some ipath)
  let template_abspath ← match input_config.template_relpath with
    | some s => Anvil.input_path ipath s
    | none => Except.error (PyError.typeError "expected str, not NoneType")
  let template_parent := (posixSplit template_abspath).1
  let template_name := (posixSplit template_abspath).2
  .ok { input_root := ipath, output_root := opath,
        ignore_func := Anvil.init_ignore_func input_config,
        input_config := input_config, template_abspath := template_abspath,
        template_parent := template_parent, template_name := template_name,
        jinja_searchpath := template_parent }

/-- Model of `Anvil.render_directory`: render the directory-name
template against the context, join it under `target_dir`, and create
it with `os.makedirs` (so a pre-existing final path raises
`FileExistsError`); returns the created absolute path. -/
def Anvil.render_directory (os : OSModel) (out : OutFS) (template : List Chunk)
    (target_dir : String) (context : Ctx) : Except PyError (String × OutFS) :=
  let directory_name := renderChunks template context
  let directory_abspath := posixJoin target_dir directory_name
  match makedirs os out directory_abspath with
  | .error e => .error e
  | .ok out' => .ok (directory_abspath, out')

/-- Model of `Anvil.inject_directory`: materialise the implicit
project directory named by the literal template expression
`\x7b\x7bproject_name\x7d\x7d` under `target_dir`. -/
def Anvil.inject_directory (os : OSModel) (out : OutFS) (target_dir : String)
    (context : Ctx) : Except PyError (String × OutFS) :=
  Anvil.render_directory os out
    (parseTemplateChunks "\x7b\x7bproject_name\x7d\x7d") target_dir context

/-- Model of `jinja_env.get_template(name)` for an environment whose
`FileSystemLoader` was rooted at `searchpath`: load and parse the file
at `searchpath/name`, raising `TemplateNotFound` when absent. -/
def jinja_get_template (os : OSModel) (searchpath nm : String) :
    Except PyError (List Chunk) :=
  match os.readFile (posixJoin searchpath nm) with
  | some source => .ok (parseTemplateChunks source)
  | none => .error .templateNotFound

/-- Model of the body of `Anvil.render_file` as defined at
`core.py:199` with its three parameters (`source_relpath`,
`target_dir`, `context`): render the base name as a string template,
load the file's content through the loader rooted at the template
parent, render it against the context, and write the result to
`target_dir/rendered_name` (truncate-or-create). -/
def Anvil.render_file (os : OSModel) (a : Anvil)
    (source_relpath target_dir : String) (context : Ctx) (out : OutFS) :
    Except PyError OutFS :=
  let file_name := posixBasename (posixNormpath source_relpath)
  let rendered_file_name := renderChunks (parseTemplateChunks file_name) context
  match jinja_get_template os a.jinja_searchpath source_relpath with
  | .error e => .error e
  | .ok template =>
      let rendered_file := renderChunks template context
      let file_abspath := posixJoin target_dir rendered_file_name
      .ok { out with files := (file_abspath, rendered_file) :: out.files }

/-- Shape of the recursive call `generate_directory` makes on a child
directory. -/
abbrev RecurseFn : Type :=
  String → String → Option Ctx → Option (List String) → OutFS →
    Except PyError OutFS

/-- Model of the per-child dispatch inside `generate_directory`'s
loop (`core.py:159-171`): an ignored node is skipped outright;
a child directory triggers the recursive call; a child file reaches
`self.render_file(child_relpath, next_target_abspath, context,
ignore)` — a call that passes four arguments to the three-parameter
method `render_file`, which Python rejects with a `TypeError` before
the body runs. -/
def Anvil.child_step (os : OSModel) (a : Anvil) (recurse : RecurseFn)
    (source_relpath next_target_abspath : String) (context : Ctx)
    (ignore : Option (List String)) (ignored_nodes : List String)
    (out : OutFS) (node : String) : Except PyError OutFS :=
  if ignored_nodes.contains node then .ok out
  else
    let child_relpath := posixJoin source_relpath node
    match Anvil.template_parent_join a.template_parent child_relpath with
    | .error e => .error e
    | .ok child_abspath =>
        if os.isdir child_abspath then
          recurse child_relpath next_target_abspath (some context) ignore out
        else
          .error (.typeError
            "render_file() takes 4 positional arguments but 5 were given")

/-- Model of `Anvil.generate_directory`, with explicit recursion fuel
(one unit per directory level; `fuelExhausted` is unreachable with
fuel exceeding the template depth).  A `None` context defaults to the
empty mapping; the sentinel relpaths `"."` and `""` mean the input
repo is the template and the project directory is injected; otherwise
the tail directory name is itself rendered as a template.  The target
directory is created before the source is listed, and each non-ignored
child is dispatched in listing order. -/
def Anvil.generate_directory (os : OSModel) (a : Anvil) :
    Nat → String → String → Option Ctx → Option (List String) → OutFS →
      Except PyError OutFS
  | 0, _, _, _, _, _ => .error .fuelExhausted
  | fuel + 1, source_relpath, target_dir, contextOpt, ignore, out =>
      let context := contextOpt.getD []
      match (if source_relpath = "." ∨ source_relpath = "" then
               Anvil.inject_directory os out target_dir context
             else
               let directory_name := posixBasename (posixNormpath source_relpath)
               let template := parseTemplateChunks directory_name
               Anvil.render_directory os out template target_dir context) with
      | .error e => .error e
      | .ok (next_target_abspath, out) =>
          match Anvil.template_parent_join a.template_parent source_relpath with
          | .error e => .error e
          | .ok source_abspath =>
              match os.listdir source_abspath with
              | none => .error .osError
              | some nodes =>
                  let ignored_nodes := match ignore with
                    | some pats => shutil_ignore_patterns pats source_abspath nodes
                    | none => []
                  nodes.foldlM
                    (Anvil.child_step os a
                      (fun sr td c ig o =>
                        Anvil.generate_directory os a fuel sr td c ig o)
                      source_relpath next_target_abspath context ignore
                      ignored_nodes)
                    out

/-- Content of `anvil.yaml` in the end-to-end root-arrangement
scenario of the spec: `template_dir` set to the empty string. -/
def scenarioYaml : String := "anvil_template_dir: \"\""

/-- Oracle for the end-to-end root-arrangement scenario: an input
repository at `/repo` holding `anvil.yaml` and the template file
`\x7b\x7bfile_name\x7d\x7d.txt` with content
`Hello \x7b\x7bproject\x7d\x7d`, and an existing empty output
directory `/out`. -/
def osScenario : OSModel :=
  { path_exists := fun p =>
      ["/", "/out", "/repo", "/repo/anvil.yaml",
        "/repo/\x7b\x7bfile_name\x7d\x7d.txt"].contains p,
    isdir := fun p => ["/", "/out", "/repo", "/repo/"].contains p,
    listdir := fun p =>
      if p = "/repo" ∨ p = "/repo/" then
        some ["anvil.yaml", "\x7b\x7bfile_name\x7d\x7d.txt"]
      else none,
    readFile := fun p =>
      if p = "/repo/anvil.yaml" then some scenarioYaml
      else if p = "/repo/\x7b\x7bfile_name\x7d\x7d.txt" then
        some "Hello \x7b\x7bproject\x7d\x7d"
      else none,
    yamlParse := fun c =>
      if c = scenarioYaml then .ok [("anvil_template_dir", some "")]
      else .error .configLoad }

/-- Rendering context of the end-to-end scenario: the claim's
`file_name` and `project` bindings, plus a `project_name` binding for
the injected project directory the spec's scenario names. -/
def scenarioCtx : Ctx :=
  [("file_name", "greet"), ("project", "world"), ("project_name", "proj")]

/-- The `Anvil` object `Anvil.init` builds for the scenario: root
arrangement, so the ignore patterns include `anvil.yaml`, the template
parent is the repository root, and the template name is empty. -/
def scenarioAnvil : Anvil :=
  { input_root := "/repo", output_root := "/out",
    ignore_func := [".DS_Store", "anvil.yaml"],
    input_config :=
      { title := some "", description := some "", epilog := some "",
        template_relpath := some "", context_vars := some [] },
    template_abspath := "/repo/", template_parent := "/repo",
    template_name := "", jinja_searchpath := "/repo" }

/-- End-to-end run of the scenario, following
`Anvil.interactive_generate`'s call shape but with the scenario's
context in place of the stub `example_context`. -/
def scenario_run : Except PyError OutFS :=
  match Anvil.init osScenario "/repo" "/out" with
  | .error e => .error e
  | .ok a =>
      Anvil.generate_directory osScenario a 3 a.template_name a.output_root
        (some scenarioCtx) (some a.ignore_func) ⟨[], []⟩

/-- C1: the claim says every non-ignored file child is rendered and
written to `target_dir/rendered_name`, and that the end-to-end
root-arrangement scenario produces `greet.txt` containing
`Hello world`.  The code instead aborts: `generate_directory` passes
four arguments (`child_relpath`, `next_target_abspath`, `context`,
`ignore`) to the three-parameter method `render_file`, so dispatching
any file child raises `TypeError` and nothing is written — even
though `render_file`'s own body (third conjunct), run as defined with
its three parameters, would produce exactly
`/out/proj/greet.txt` with content `Hello world`. -/
theorem C1_generate_file_child_type_error :
    scenario_run =
      .error (.typeError
        "render_file() takes 4 positional arguments but 5 were given") ∧
    Anvil.init osScenario "/repo" "/out" = .ok scenarioAnvil ∧
    Anvil.render_file osScenario scenarioAnvil
        "\x7b\x7bfile_name\x7d\x7d.txt" "/out/proj" scenarioCtx
        ⟨["/out/proj", "/out"], []⟩ =
      .ok ⟨["/out/proj", "/out"], [("/out/proj/greet.txt", "Hello world")]⟩ :=
  ⟨rfl, rfl, rfl⟩

/-- C2: `template_arrangement()` is a pure function of the stored
`template_dir` value, returning `root` exactly when that value is
Python `None` or one of the strings `""`, `"."`, `"None"`, `"none"`
(an absent key is stored as `""` by the loader), and `subnode` for
every other value. -/
theorem C2_template_arrangement_pure_case_split :
    (∀ a b : AnvilFile, a.template_relpath = b.template_relpath →
      a.template_arrangement = b.template_arrangement) ∧
    (∀ a : AnvilFile,
      (a.template_arrangement = "root" ↔
        (a.template_relpath = none ∨ a.template_relpath = some "" ∨
          a.template_relpath = some "." ∨ a.template_relpath = some "None" ∨
          a.template_relpath = some "none")) ∧
      (a.template_arrangement = "subnode" ↔
        ∃ s, a.template_relpath = some s ∧ s ≠ "" ∧ s ≠ "." ∧
          s ≠ "None" ∧ s ≠ "none")) := by
  constructor
  · intro a b h
    unfold AnvilFile.template_arrangement
    rw [h]
  · intro a
    rcases h : a.template_relpath with _ | s
    · simp [AnvilFile.template_arrangement, h]
    · by_cases h1 : s = ""
      · simp [AnvilFile.template_arrangement, h, h1]
      · by_cases h2 : s = "."
        · simp [AnvilFile.template_arrangement, h, h2]
        · by_cases h3 : s = "None"
          · simp [AnvilFile.template_arrangement, h, h3]
          · by_cases h4 : s = "none"
            · simp [AnvilFile.template_arrangement, h, h4]
            · simp [AnvilFile.template_arrangement, h, h1, h2, h3, h4]

/-- C2 witness: two configurations sharing `template_relpath = "app"`
agree on the arrangement, and the case split holds at that value. -/
theorem C2_witness :
    (AnvilFile.mk none none none (some "app") none).template_arrangement =
      (AnvilFile.mk (some "t") none none (some "app")
        (some [])).template_arrangement ∧
    ((AnvilFile.mk none none none (some "app") none).template_arrangement =
      "subnode" ↔
      ∃ s, (AnvilFile.mk none none none (some "app")
          none).template_relpath = some s ∧
        s ≠ "" ∧ s ≠ "." ∧ s ≠ "None" ∧ s ≠ "none") :=
  ⟨C2_template_arrangement_pure_case_split.1
      (AnvilFile.mk none none none (some "app") none)
      (AnvilFile.mk (some "t") none none (some "app") (some [])) rfl,
    (C2_template_arrangement_pure_case_split.2
      (AnvilFile.mk none none none (some "app") none)).2⟩

/-- Concrete configuration document holding both a reserved key
`anvil_title` and a plain key `title`. -/
def c3doc : List (String × Nat) := [("anvil_title", 1), ("title", 2)]

/-- C3 counterexample: the claim asserts the two result mappings are
disjoint and that every document key belongs to exactly one of them.
On a document with both `anvil_title` and `title`, `anvil_keys` strips
the prefix, so both result mappings contain the key `title` (not
disjoint) while the document key `anvil_title` itself appears in
neither mapping. -/
theorem C3_counterexample :
    "title" ∈ (anvil_keys c3doc).map Prod.fst ∧
    "title" ∈ (context_keys c3doc).map Prod.fst ∧
    "anvil_title" ∉ (anvil_keys c3doc).map Prod.fst ∧
    "anvil_title" ∉ (context_keys c3doc).map Prod.fst := by
  decide

/-- C3 (amended): the reserved-prefix test and its negation select
every document entry exactly once, purely lexically and independent of
order; `context_keys` keeps exactly the non-prefixed keys verbatim,
while `anvil_keys` carries exactly the prefix-stripped images of the
prefixed keys — so the two result mappings need not have disjoint key
sets. -/
theorem C3_reserved_split {α : Type} (data : List (String × α)) :
    (∀ kv ∈ data,
      (kv ∈ data.filter (fun kv => pyStartsWith kv.1 "anvil_") ↔
        kv ∉ context_keys data)) ∧
    (∀ k, k ∈ (context_keys data).map Prod.fst ↔
      (k ∈ data.map Prod.fst ∧ pyStartsWith k "anvil_" = false)) ∧
    (∀ k, k ∈ (anvil_keys data).map Prod.fst ↔
      ∃ k₀, k₀ ∈ data.map Prod.fst ∧ pyStartsWith k₀ "anvil_" = true ∧
        k = String.mk (k₀.data.drop "anvil_".length)) := by
  refine ⟨?_, ?_, ?_⟩
  · intro kv hkv
    simp [context_keys, List.mem_filter, hkv]
  · intro k
    simp only [context_keys, List.mem_map, List.mem_filter]
    constructor
    · rintro ⟨kv, ⟨hmem, hq⟩, rfl⟩
      exact ⟨⟨kv, hmem, rfl⟩, by simpa using hq⟩
    · rintro ⟨⟨kv, hmem, rfl⟩, hq⟩
      exact ⟨kv, ⟨hmem, by simpa using hq⟩, rfl⟩
  · intro k
    constructor
    · intro hk
      rcases List.mem_map.mp hk with ⟨kv2, hkv2, rfl⟩
      rcases List.mem_map.mp hkv2 with ⟨kv, hkv, rfl⟩
      rcases List.mem_filter.mp hkv with ⟨hmem, hq⟩
      exact ⟨kv.1, List.mem_map.mpr ⟨kv, hmem, rfl⟩, hq, rfl⟩
    · rintro ⟨k₀, hk₀, hq, rfl⟩
      rcases List.mem_map.mp hk₀ with ⟨kv, hmem, rfl⟩
      exact List.mem_map.mpr
        ⟨(String.mk (kv.1.data.drop "anvil_".length), kv.2),
          List.mem_map.mpr ⟨kv, List.mem_filter.mpr ⟨hmem, hq⟩, rfl⟩, rfl⟩

/-- C3 witness: at the concrete document `c3doc`, the entry
`("anvil_title", 1)` is selected by the reserved-prefix filter exactly
because it is not kept by `context_keys`. -/
theorem C3_witness :
    (("anvil_title", (1 : Nat)) ∈
        c3doc.filter (fun kv => pyStartsWith kv.1 "anvil_")) ↔
      ("anvil_title", (1 : Nat)) ∉ context_keys c3doc :=
  (C3_reserved_split c3doc).1 ("anvil_title", 1) (by decide)

/-- C4: the default ignore set is exactly the one OS-metadata pattern
`.DS_Store`; a supplied `patterns` list fully replaces it; a supplied
`addons` list is appended to whichever base is active; the resulting
predicate selects exactly the listed names glob-matching some pattern;
and concretely `get_ignore(addons=["a"])` on a listing `a`, `b`,
`.DS_Store` skips `a` and `.DS_Store` but not `b`. -/
theorem C4_get_ignore_policy :
    get_ignore none none = [".DS_Store"] ∧
    (∀ ps, get_ignore (some ps) none = ps) ∧
    (∀ ps adds, get_ignore (some ps) (some adds) = ps ++ adds) ∧
    (∀ adds, get_ignore none (some adds) = ".DS_Store" :: adds) ∧
    (∀ pats path names nm,
      nm ∈ shutil_ignore_patterns pats path names ↔
        (nm ∈ names ∧ ∃ p ∈ pats, fnmatch nm p = true)) ∧
    shutil_ignore_patterns (get_ignore none (some ["a"])) "/src"
        ["a", "b", ".DS_Store"] = ["a", ".DS_Store"] := by
  refine ⟨rfl, fun ps => rfl, fun ps adds => rfl, fun adds => rfl, ?_, by decide⟩
  intro pats path names nm
  simp [shutil_ignore_patterns, List.mem_filter, List.any_eq_true]

/-- C5: both path-resolution operations reject an absolute relative
path argument by raising a usage error (Python `ValueError`, the
spec's `InvalidPathError` class) instead of returning a path. -/
theorem C5_absolute_paths_rejected (input_root template_parent p : String)
    (h : posixIsabs p = true) :
    Anvil.input_path input_root p =
      .error (.valueError "input_relpath cannot be an absolute path") ∧
    Anvil.template_parent_join template_parent p =
      .error (.valueError "template_relpath cannot be an absolute path") := by
  constructor
  · simp [Anvil.input_path, h]
  · simp [Anvil.template_parent_join, h]

/-- C5 witness: the absolute path `/abs` is rejected by both
resolvers. -/
theorem C5_witness :
    Anvil.input_path "/repo" "/abs" =
      .error (.valueError "input_relpath cannot be an absolute path") ∧
    Anvil.template_parent_join "/repo" "/abs" =
      .error (.valueError "template_relpath cannot be an absolute path") :=
  C5_absolute_paths_rejected "/repo" "/repo" "/abs" rfl

/-- Concatenating chunk lists concatenates their renderings. -/
theorem renderData_append (xs ys : List Chunk) (context : Ctx) :
    renderData (xs ++ ys) context =
      renderData xs context ++ renderData ys context := by
  induction xs with
  | nil => rfl
  | cons x xs ih => cases x <;> simp [renderData, ih]

/-- C7: rendering a template that references a variable absent from
the context does not raise — rendering is total in this model, and the
undefined lookup contributes the empty string, so the result is just
the surrounding chunks' rendering. -/
theorem C7_undefined_variable_renders_empty (pre post : List Chunk)
    (nm : String) (context : Ctx) (h : lookupCtx context nm = none) :
    renderChunks (pre ++ Chunk.var nm :: post) context =
      renderChunks pre context ++ renderChunks post context := by
  unfold renderChunks
  have h1 : renderData (pre ++ Chunk.var nm :: post) context =
      renderData pre context ++ renderData post context := by
    rw [renderData_append]
    simp [renderData, h]
  rw [h1]
  rfl

/-- C7 witness: rendering `A\x7b\x7bmissing\x7d\x7d B`-style chunks
against a context lacking `missing` yields the two literals'
rendering. -/
theorem C7_witness :
    renderChunks [Chunk.lit "A", Chunk.var "missing", Chunk.lit "B"]
        [("project", "world")] =
      renderChunks [Chunk.lit "A"] [("project", "world")] ++
        renderChunks [Chunk.lit "B"] [("project", "world")] :=
  C7_undefined_variable_renders_empty [Chunk.lit "A"] [Chunk.lit "B"]
    "missing" [("project", "world")] rfl

/-- C9: constructing the configuration with an input root whose
`anvil.yaml` does not exist unconditionally opens the file and raises
`FileNotFoundError`; a missing configuration file is never silently
treated as defaults. -/
theorem C9_missing_config_raises (os : OSModel) (input_root : String)
    (h : os.readFile (posixJoin input_root AnvilFile.ANVIL_FILE) = none) :
    AnvilFile.mkInit os (some input_root) = .error .fileNotFound := by
  simp [AnvilFile.mkInit, AnvilFile.load_file, h]

/-- Oracle for an environment with an empty filesystem. -/
def emptyOS : OSModel :=
  { path_exists := fun _ => false, isdir := fun _ => false,
    listdir := fun _ => none, readFile := fun _ => none,
    yamlParse := fun _ => .error .configLoad }

/-- C9 witness: with no files on disk, construction with an input
root fails with the file-not-found error. -/
theorem C9_witness :
    AnvilFile.mkInit emptyOS (some "/repo") = .error .fileNotFound :=
  C9_missing_config_raises emptyOS "/repo" rfl

/-- C10: constructing an `AnvilFile` with no `input_root` and no
`context_vars` stores `None` in the context-variable field — the
`None`-to-empty-dict replacement in the source only rebinds a local
after the field was stored — so `get_context_vars()` returns
`None`, not an empty mapping. -/
theorem C10_default_context_vars_none (os : OSModel) :
    AnvilFile.mkInit os =
      .ok { title := none, description := none, epilog := none,
            template_relpath := some "", context_vars := none } ∧
    (AnvilFile.mkInit os).toOption.map AnvilFile.get_context_vars =
      some none :=
  ⟨rfl, rfl⟩

/-- C6: directory materialization creates the rendered target path
together with any missing intermediate directory, and when the final
rendered path already exists it fails with the `FileExistsError` the
spec classifies as `DestinationExistsError` — an error that aborts the
surrounding `generate_directory` run — and it never removes or
modifies existing entries of the output (no overwrite, no merge): on
success the previous directories and files are all preserved, and
failure is the only outcome when the target exists. -/
theorem C6_render_directory_materialization (os : OSModel) (out : OutFS)
    (template : List Chunk) (target_dir : String) (context : Ctx) :
    (pathExists os out (posixJoin target_dir (renderChunks template context)) =
        true →
      Anvil.render_directory os out template target_dir context =
        .error .fileExists) ∧
    (pathExists os out (posixJoin target_dir (renderChunks template context)) =
        false →
      Anvil.render_directory os out template target_dir context =
        .ok (posixJoin target_dir (renderChunks template context),
          { out with dirs :=
              (posixJoin target_dir (renderChunks template context) ::
                pathAncestors
                  (posixJoin target_dir (renderChunks template context)) ++
                  out.dirs) })) ∧
    (∀ p out',
      Anvil.render_directory os out template target_dir context = .ok (p, out') →
      p ∈ out'.dirs ∧ (∀ anc ∈ pathAncestors p, anc ∈ out'.dirs) ∧
        (∀ d ∈ out.dirs, d ∈ out'.dirs) ∧ out'.files = out.files) ∧
    (∀ e,
      Anvil.render_directory os out template target_dir context = .error e →
      e = .fileExists) ∧
    (∀ (a : Anvil) (fuel : Nat) (source_relpath : String)
        (contextOpt : Option Ctx) (ignore : Option (List String)) (e : PyError),
      ¬ (source_relpath = "." ∨ source_relpath = "") →
      Anvil.render_directory os out
          (parseTemplateChunks (posixBasename (posixNormpath source_relpath)))
          target_dir (contextOpt.getD []) = .error e →
      Anvil.generate_directory os a (fuel + 1) source_relpath target_dir
        contextOpt ignore out = .error e) := by
  refine ⟨?_, ?_, ?_, ?_, ?_⟩
  · intro h
    simp [Anvil.render_directory, makedirs, h]
  · intro h
    simp [Anvil.render_directory, makedirs, h]
  · intro p out' hok
    cases hpe : pathExists os out (posixJoin target_dir
        (renderChunks template context)) with
    | true =>
        simp [Anvil.render_directory, makedirs, hpe] at hok
    | false =>
        simp [Anvil.render_directory, makedirs, hpe] at hok
        obtain ⟨rfl, rfl⟩ := hok
        refine ⟨List.mem_cons_self _ _, ?_, ?_, rfl⟩
        · intro anc hanc
          exact List.mem_cons_of_mem _ (List.mem_append_left _ hanc)
        · intro d hd
          exact List.mem_cons_of_mem _ (List.mem_append_right _ hd)
  · intro e he
    cases hpe : pathExists os out (posixJoin target_dir
        (renderChunks template context)) with
    | true =>
        simp [Anvil.render_directory, makedirs, hpe] at he
        exact he.symm
    | false =>
        simp [Anvil.render_directory, makedirs, hpe] at he
  · intro a fuel source_relpath contextOpt ignore e hsp hre
    simp only [Anvil.generate_directory]
    rw [if_neg hsp, hre]

/-- C6 witness: in the scenario environment, creating a directory that
renders to the existing `/repo` fails with the exists-error; creating
`/out/proj` succeeds, recording the directory, its ancestor `/out` and
untouched files; the error classification and the propagation of the
exists-error through `generate_directory` hold at those inputs. -/
theorem C6_witness :
    Anvil.render_directory osScenario ⟨[], []⟩ [Chunk.lit "repo"] "/"
        scenarioCtx = .error .fileExists ∧
    Anvil.render_directory osScenario ⟨[], []⟩ [Chunk.var "project_name"]
        "/out" scenarioCtx = .ok ("/out/proj", ⟨["/out/proj", "/out"], []⟩) ∧
    "/out/proj" ∈ (OutFS.mk ["/out/proj", "/out"] []).dirs ∧
    PyError.fileExists = PyError.fileExists ∧
    Anvil.generate_directory osScenario scenarioAnvil 1 "repo" "/"
        (some scenarioCtx) none ⟨[], []⟩ = .error .fileExists :=
  ⟨(C6_render_directory_materialization osScenario ⟨[], []⟩ [Chunk.lit "repo"]
      "/" scenarioCtx).1 rfl,
    (C6_render_directory_materialization osScenario ⟨[], []⟩
      [Chunk.var "project_name"] "/out" scenarioCtx).2.1 rfl,
    ((C6_render_directory_materialization osScenario ⟨[], []⟩
      [Chunk.var "project_name"] "/out" scenarioCtx).2.2.1 "/out/proj"
      ⟨["/out/proj", "/out"], []⟩ rfl).1,
    (C6_render_directory_materialization osScenario ⟨[], []⟩ [Chunk.lit "repo"]
      "/" scenarioCtx).2.2.2.1 .fileExists rfl,
    (C6_render_directory_materialization osScenario ⟨[], []⟩ [Chunk.lit "repo"]
      "/" scenarioCtx).2.2.2.2 scenarioAnvil 0 "repo" (some scenarioCtx) none
      .fileExists (by decide) rfl⟩

/-- C8: when the template arrangement is `root`, the orchestrator's
ignore set is exactly the default OS-metadata pattern plus the
configuration file's name `anvil.yaml`; the resulting predicate places
`anvil.yaml` in the ignored subset of any listing containing it; and
an ignored node is skipped by the expansion loop with no effect on the
output whatsoever — so the configuration file is never copied into the
generated output. -/
theorem C8_root_arrangement_ignores_config :
    (∀ cfg : AnvilFile, cfg.template_arrangement = "root" →
      Anvil.init_ignore_func cfg = [".DS_Store", "anvil.yaml"]) ∧
    (∀ (path : String) (names : List String), "anvil.yaml" ∈ names →
      "anvil.yaml" ∈
        shutil_ignore_patterns [".DS_Store", "anvil.yaml"] path names) ∧
    (∀ (os : OSModel) (a : Anvil) (recurse : RecurseFn)
        (source_relpath next_target : String) (context : Ctx)
        (ignore : Option (List String)) (ignored_nodes : List String)
        (out : OutFS) (node : String),
      ignored_nodes.contains node = true →
      Anvil.child_step os a recurse source_relpath next_target context ignore
        ignored_nodes out node = .ok out) := by
  refine ⟨?_, ?_, ?_⟩
  · intro cfg h
    unfold Anvil.init_ignore_func
    rw [if_pos h]
    rfl
  · intro path names h
    exact List.mem_filter.mpr ⟨h, by decide⟩
  · intro os a recurse source_relpath next_target context ignore ignored_nodes
      out node h
    unfold Anvil.child_step
    rw [if_pos h]

/-- C8 witness: the scenario's root-arrangement configuration yields
the augmented ignore set; `anvil.yaml` is ignored in the scenario's
listing; and the loop skips it, leaving the output untouched. -/
theorem C8_witness :
    Anvil.init_ignore_func scenarioAnvil.input_config =
      [".DS_Store", "anvil.yaml"] ∧
    "anvil.yaml" ∈ shutil_ignore_patterns [".DS_Store", "anvil.yaml"] "/repo/"
      ["anvil.yaml", "x.txt"] ∧
    Anvil.child_step osScenario scenarioAnvil (fun _ _ _ _ o => .ok o) ""
      "/out/proj" scenarioCtx (some [".DS_Store", "anvil.yaml"])
      ["anvil.yaml"] ⟨[], []⟩ "anvil.yaml" = .ok ⟨[], []⟩ :=
  ⟨C8_root_arrangement_ignores_config.1 scenarioAnvil.input_config rfl,
    C8_root_arrangement_ignores_config.2.1 "/repo/" ["anvil.yaml", "x.txt"]
      (by decide),
    C8_root_arrangement_ignores_config.2.2 osScenario scenarioAnvil
      (fun _ _ _ _ o => .ok o) "" "/out/proj" scenarioCtx
      (some [".DS_Store", "anvil.yaml"]) ["anvil.yaml"] ⟨[], []⟩ "anvil.yaml"
      rfl⟩
